import Mathlib

/-!
Shallow embedding of the BagsCheck core: the identifier validator
(`src/lib/validation.ts`) and the analysis engine (normalize.ts, in
`src/unnamed/part_000`).

Modelling conventions:
* JavaScript numbers are modelled as `Option ℚ`: `none` is `NaN`, `some q`
  is the exact value.  The engine's arithmetic never produces infinities on
  the guarded paths it takes (every division site is guarded by a positive,
  non-`NaN` denominator check in the source), and IEEE-754 rounding is not
  modelled: rationals are exact.
* Strings are Lean `String`s; `String.length` counts scalar values where
  JavaScript counts UTF-16 units.  The two disagree only on strings holding
  astral-plane characters, which fail the Base58 character test anyway, so
  the validator's verdict is unaffected.
* The wall clock (`Date.now()`), the host date parser (`new Date(string)`)
  and the ISO formatter (`Date.prototype.toISOString`) are environment
  parameters (`JsEnv`); the engine consults them exactly where the source
  does.  The RangeError that `toISOString` throws on a numeric timestamp
  beyond the ECMAScript time-value bound is modelled explicitly: the
  last-claim scan and `analyzeTokenE` are `Except`-valued, and `env.toISO`
  is only consulted for in-range instants.
-/

/- Batteries marks the `Rat` field operations `@[irreducible]`; re-mark
them semireducible so that concrete engine runs can be settled by
`decide`. -/
attribute [local semireducible] Rat.add Rat.mul Rat.sub Rat.inv

/-- Whitespace as recognized by JavaScript trim and parseInt: the full
ECMAScript WhiteSpace production (TAB, VT, FF, SP, NBSP, ZWNBSP and
every other Space_Separator code point: U+1680, U+2000..U+200A, U+202F,
U+205F, U+3000) plus the LineTerminator production (LF, CR, LS, PS). -/
def isJsWhitespace (c : Char) : Bool :=
  c = ' ' || c = '\t' || c = '\n' || c = '\r' ||
  c = '\x0b' || c = '\x0c' || c = ' ' || c = ' ' ||
  (' ' ≤ c && c ≤ ' ') || c = ' ' || c = ' ' ||
  c = ' ' || c = ' ' || c = '　' || c = '﻿'

/-- JavaScript `String.prototype.trim`: drop whitespace from both ends. -/
def jsTrim (s : String) : String :=
  String.mk (((s.data.dropWhile isJsWhitespace).reverse.dropWhile isJsWhitespace).reverse)

/-- Decimal value of a digit list (most significant first). -/
def digitsVal (ds : List Char) : ℕ :=
  ds.foldl (fun acc c => acc * 10 + (c.toNat - 48)) 0

/-- The longest leading run of decimal digits, as a number; `none` if there
is no leading digit. -/
def leadingDigits (cs : List Char) : Option ℕ :=
  let ds := cs.takeWhile Char.isDigit
  if ds.isEmpty then none else some (digitsVal ds)

/-- JavaScript `parseInt(s, 10)`: skip leading whitespace, optional sign,
read leading decimal digits, ignore the rest; `NaN` (`none`) when no digit
is found.  Modelled exactly (no double rounding for huge inputs). -/
def jsParseInt (s : String) : Option ℤ :=
  match s.data.dropWhile isJsWhitespace with
  | '-' :: rest => (leadingDigits rest).map (fun n => -(n : ℤ))
  | '+' :: rest => (leadingDigits rest).map (fun n => (n : ℤ))
  | cs => (leadingDigits cs).map (fun n => (n : ℤ))

/-- JS addition on numbers (`NaN` absorbs). -/
def jadd (a b : Option ℚ) : Option ℚ :=
  match a, b with
  | some x, some y => some (x + y)
  | _, _ => none

/-- JS subtraction on numbers (`NaN` absorbs). -/
def jsub (a b : Option ℚ) : Option ℚ :=
  match a, b with
  | some x, some y => some (x - y)
  | _, _ => none

/-- JS multiplication on numbers (`NaN` absorbs). -/
def jmul (a b : Option ℚ) : Option ℚ :=
  match a, b with
  | some x, some y => some (x * y)
  | _, _ => none

/-- JS division on numbers (`NaN` absorbs).  Every call site in the engine
guards the denominator to be a positive number first, so the zero case
(JS infinity) is unreachable and left at Lean's `x / 0 = 0`. -/
def jdiv (a b : Option ℚ) : Option ℚ :=
  match a, b with
  | some x, some y => some (x / y)
  | _, _ => none

/-- JS `<` on numbers: any comparison involving `NaN` is false. -/
def jlt (a b : Option ℚ) : Bool :=
  match a, b with
  | some x, some y => decide (x < y)
  | _, _ => false

/- Identifier validator (`src/lib/validation.ts`). -/

/-- A character of the Base58 alphabet, i.e. the character class
`[1-9A-HJ-NP-Za-km-z]` (digits and letters without `0`, `O`, `I`, `l`). -/
def isBase58Char (c : Char) : Bool :=
  ('1' ≤ c && c ≤ '9') || ('A' ≤ c && c ≤ 'H') || ('J' ≤ c && c ≤ 'N') ||
  ('P' ≤ c && c ≤ 'Z') || ('a' ≤ c && c ≤ 'k') || ('m' ≤ c && c ≤ 'z')

/-- The regular-expression test `/^[1-9A-HJ-NP-Za-km-z]+$/.test s`. -/
def base58Test (s : String) : Bool :=
  !s.data.isEmpty && s.data.all isBase58Char

/-- `isValidTokenMint` from `src/lib/validation.ts`.  The `!mint` guard of
the source rejects the empty string (`typeof` is enforced by the Lean
type). -/
def isValidTokenMint (mint : String) : Bool :=
  if mint = "" then false
  else
    let trimmed := jsTrim mint
    if trimmed.length < 32 || trimmed.length > 44 then false
    else base58Test trimmed

/- Data model of the analysis engine (normalize.ts in src/unnamed/part_000). -/

/-- A fee recipient record (`ClaimerInfo`); also the shape of the
`creators` configuration records, matching the source signature of
`analyzeToken`, where both lists are typed `ClaimerInfo[]`. -/
structure ClaimerInfo where
  username : Option String := none
  pfp : Option String := none
  royaltyBps : ℤ
  isCreator : Bool
  wallet : String
  totalClaimed : String
  provider : Option String := none
  providerUsername : Option String := none
deriving DecidableEq

/-- A claim-event timestamp: the upstream field is either a Unix timestamp
in seconds (a number) or a date-time string. -/
inductive TsVal where
  | num (val : ℚ)
  | str (val : String)
deriving DecidableEq

/-- A claim event as consumed by the engine; only the `timestamp` field is
ever read by the analysis code (wallet/amount/signature are ignored). -/
structure ClaimEventRec where
  timestamp : TsVal
deriving DecidableEq

/-- An `{ events: [...] }` wrapper, as returned by the events endpoints. -/
structure EventsList where
  events : List ClaimEventRec
deriving DecidableEq

/-- The raw-data argument of `analyzeToken`. -/
structure RawData where
  lifetimeFees : String
  claimStats : List ClaimerInfo
  claimEvents : EventsList
  claimEventsRecent : EventsList
  creators : List ClaimerInfo
deriving DecidableEq

/-- The host environment the engine consults: the wall clock
(`Date.now()`, in milliseconds), the host date parser
(`new Date(string).getTime()`, `none` for an invalid date), and the ISO
formatter (`new Date(ms).toISOString()`), which the engine only consults
for `|ms|` within the ECMAScript time-value bound — beyond it the real
call throws, a path modelled by `Except.error` in the last-claim scan
rather than by this total field. -/
structure JsEnv where
  now : ℚ
  dateParse : String → Option ℚ
  toISO : ℚ → String

/-- The verdict enumeration. -/
inductive Verdict where
  | HEALTHY
  | CENTRALIZED
  | DORMANT
deriving DecidableEq

/-- The distribution-pattern enumeration. -/
inductive DistPattern where
  | SingleExtractor
  | CreatorHeavy
  | BroadDistribution
  | AbandonedFees
  | MultiClaimerBalance
deriving DecidableEq

/-- The activity-status enumeration. -/
inductive ActivityStatus where
  | Active
  | Quiet
  | Dead
deriving DecidableEq

/-- Result record of `calculateVerdict`. -/
structure VerdictResult where
  verdict : Verdict
  summary : String
  why : String
deriving DecidableEq

/-- The output snapshot (`TokenAnalysis`). -/
structure TokenAnalysis where
  lifetimeFeesSOL : Option ℚ
  claimedPct : Option ℚ
  unclaimedPct : Option ℚ
  creatorSharePct : Option ℚ
  nonCreatorSharePct : Option ℚ
  top1ClaimerPct : Option ℚ
  top5ClaimerPct : Option ℚ
  claimCount24h : ℕ
  totalClaimers : ℕ
  lastClaimTimestamp : Option String
  activityStatus : ActivityStatus
  claimers : List ClaimerInfo
  verdict : Verdict
  summary : String
  why : String
  pattern : DistPattern

/- Engine constants (normalize.ts lines 194-197). -/

/-- `LAMPORTS_PER_SOL = 1_000_000_000`. -/
def LAMPORTS_PER_SOL : ℚ := 1000000000

/-- `DORMANT_FEE_THRESHOLD_SOL = 0.1`. -/
def DORMANT_FEE_THRESHOLD_SOL : ℚ := 1 / 10

/-- `CENTRALIZED_TOP1_THRESHOLD = 50`. -/
def CENTRALIZED_TOP1_THRESHOLD : ℚ := 50

/-- `CENTRALIZED_TOP5_THRESHOLD = 80`. -/
def CENTRALIZED_TOP5_THRESHOLD : ℚ := 80

/-- `MIN_VALID_TIMESTAMP = new Date("2020-01-01").getTime()`:
2020-01-01T00:00:00Z in epoch milliseconds. -/
def MIN_VALID_TIMESTAMP : ℚ := 1577836800000

/-- The ECMAScript time-value bound (8.64e15 ms): `new Date(ms)` holds an
Invalid Date when `|ms|` exceeds it, and `toISOString()` on an Invalid
Date throws a RangeError. -/
def MAX_TIME_VALUE : ℚ := 8640000000000000

/-- Number formatting `x.toFixed(d)` for a non-negative rational: round to
`d` decimals (ties up, per the ECMAScript larger-`n` rule on the
magnitude) and render. -/
def ratToFixedNonneg (q : ℚ) (d : ℕ) : String :=
  let n : ℕ := (Int.floor (q * (10 : ℚ) ^ d + 1 / 2)).toNat
  let ip := n / 10 ^ d
  let fp := n % 10 ^ d
  if d = 0 then Nat.repr ip
  else
    let fs := Nat.repr fp
    let padded := String.mk (List.replicate (d - fs.length) '0') ++ fs
    Nat.repr ip ++ "." ++ padded

/-- `Number.prototype.toFixed`: sign first, then the magnitude. -/
def ratToFixed (q : ℚ) (d : ℕ) : String :=
  if q < 0 then "-" ++ ratToFixedNonneg (-q) d else ratToFixedNonneg q d

/-- `toFixed` lifted to JS numbers: `NaN.toFixed(d) = "NaN"`. -/
def toFixedOpt (x : Option ℚ) (d : ℕ) : String :=
  match x with
  | none => "NaN"
  | some q => ratToFixed q d

/- Engine helpers (normalize.ts lines 261-433). -/

/-- `lamportsToSOL`: `parseInt(lamports, 10) / LAMPORTS_PER_SOL`. -/
def lamportsToSOL (lamports : String) : Option ℚ :=
  (jsParseInt lamports).map (fun n => (n : ℚ) / LAMPORTS_PER_SOL)

/-- The per-event validity test inside `getClaimCount24h`: reject falsy
timestamps, unparseable or non-positive instants, and instants before
2020-01-01 (non-strict lower bound `>= MIN`). -/
def count24hValid (env : JsEnv) (e : ClaimEventRec) : Bool :=
  match e.timestamp with
  | TsVal.num q =>
    if q = 0 then false
    else
      let ms := q * 1000
      if ms ≤ 0 then false
      else if ms < MIN_VALID_TIMESTAMP then false
      else true
  | TsVal.str s =>
    if s = "" then false
    else
      match env.dateParse s with
      | none => false
      | some ms =>
        if ms ≤ 0 then false
        else if ms < MIN_VALID_TIMESTAMP then false
        else true

/-- `getClaimCount24h`: count the events with a valid timestamp. -/
def getClaimCount24h (env : JsEnv) (events : List ClaimEventRec) : ℕ :=
  (events.filter (count24hValid env)).length

/-- Function getLastClaimTimestamp: scan the events in order and return
the ISO string of the first one whose instant is strictly between
2020-01-01 and `now + 86400000` ms; `undefined` (`Except.ok none`) when no
event qualifies.  The numeric branch of the source calls
`new Date(timestampMs).toISOString()` BEFORE any validity check, which
throws a RangeError when `|timestampMs|` exceeds the ECMAScript time-value
bound; that thrown path is `Except.error ()`.  The string branch never
constructs an ISO string, so it cannot throw. -/
def getLastClaimTimestamp (env : JsEnv) : List ClaimEventRec → Except Unit (Option String)
  | [] => Except.ok none
  | e :: rest =>
    match e.timestamp with
    | TsVal.num q =>
      if q = 0 then getLastClaimTimestamp env rest
      else
        let ms := q * 1000
        if MAX_TIME_VALUE < ms ∨ ms < -MAX_TIME_VALUE then Except.error ()
        else
          let iso := env.toISO ms
          if ms ≤ 0 then getLastClaimTimestamp env rest
          else if MIN_VALID_TIMESTAMP < ms ∧ ms < env.now + 86400000 then Except.ok (some iso)
          else getLastClaimTimestamp env rest
    | TsVal.str s =>
      if s = "" then getLastClaimTimestamp env rest
      else if jsTrim s = "" then getLastClaimTimestamp env rest
      else
        match env.dateParse s with
        | none => getLastClaimTimestamp env rest
        | some ms =>
          if ms ≤ 0 then getLastClaimTimestamp env rest
          else if MIN_VALID_TIMESTAMP < ms ∧ ms < env.now + 86400000 then Except.ok (some s)
          else getLastClaimTimestamp env rest

/-- `getActivityStatus`: Dead without a parseable last-claim instant, then
Active on 24h count ≥ 5, then Quiet on count ≥ 1 or a claim within 48h. -/
def getActivityStatus (env : JsEnv) (claimCount24h : ℕ)
    (lastClaimTimestamp : Option String) : ActivityStatus :=
  match lastClaimTimestamp with
  | none => ActivityStatus.Dead
  | some s =>
    match env.dateParse s with
    | none => ActivityStatus.Dead
    | some t =>
      let hoursSinceLastClaim := (env.now - t) / (1000 * 60 * 60)
      if claimCount24h ≥ 5 then ActivityStatus.Active
      else if claimCount24h ≥ 1 ∨ hoursSinceLastClaim < 48 then ActivityStatus.Quiet
      else ActivityStatus.Dead

/-- `calculateVerdict` (normalize.ts lines 352-392): the DORMANT /
CENTRALIZED / HEALTHY first-matching ladder with its summary and why
strings. -/
def calculateVerdict (lifetimeFeesSOL top1ClaimerPct top5ClaimerPct : Option ℚ)
    (claimStats : List ClaimerInfo) : VerdictResult :=
  if jlt lifetimeFeesSOL (some DORMANT_FEE_THRESHOLD_SOL) || claimStats.length == 0 then
    { verdict := Verdict.DORMANT
      summary := "Minimal fee activity. Token has not generated meaningful revenue."
      why :=
        if jlt lifetimeFeesSOL (some DORMANT_FEE_THRESHOLD_SOL) then
          "Lifetime fees (" ++ toFixedOpt lifetimeFeesSOL 2 ++ " SOL) below threshold"
        else "No claimers found" }
  else if jlt (some CENTRALIZED_TOP1_THRESHOLD) top1ClaimerPct then
    { verdict := Verdict.CENTRALIZED
      summary := "Single wallet controls " ++ toFixedOpt top1ClaimerPct 1 ++
        "% of claimed fees. Highly concentrated distribution."
      why := "Top 1 wallet controls " ++ toFixedOpt top1ClaimerPct 1 ++ "% of claimed fees" }
  else if jlt (some CENTRALIZED_TOP5_THRESHOLD) top5ClaimerPct then
    { verdict := Verdict.CENTRALIZED
      summary := "Top 5 wallets control " ++ toFixedOpt top5ClaimerPct 1 ++
        "% of claimed fees. Distribution is heavily concentrated."
      why := "Top 5 wallets control " ++ toFixedOpt top5ClaimerPct 1 ++ "% of claimed fees" }
  else
    { verdict := Verdict.HEALTHY
      summary := "Fees are well distributed across multiple claimers. No single wallet dominates."
      why := "Top 1 wallet: " ++ toFixedOpt top1ClaimerPct 1 ++ "%, Top 5: " ++
        toFixedOpt top5ClaimerPct 1 ++ "%" }

/-- Function determinePattern (normalize.ts lines 394-433): the pattern
first-matching ladder.  The source takes a trailing claimers parameter it
never reads; it is omitted here. -/
def determinePattern (verdict : Verdict) (creatorSharePct top1ClaimerPct : Option ℚ)
    (totalClaimers : ℕ) (claimedPct : Option ℚ) : DistPattern :=
  if jlt claimedPct (some 30) && decide (totalClaimers > 0) then DistPattern.AbandonedFees
  else if jlt (some 70) top1ClaimerPct then DistPattern.SingleExtractor
  else if jlt (some 60) creatorSharePct then DistPattern.CreatorHeavy
  else if decide (totalClaimers ≥ 5) && jlt top1ClaimerPct (some 40) then
    DistPattern.BroadDistribution
  else if decide (totalClaimers ≥ 2) && jlt top1ClaimerPct (some 60) then
    DistPattern.MultiClaimerBalance
  else if verdict = Verdict.DORMANT then DistPattern.AbandonedFees
  else DistPattern.CreatorHeavy

/- The merge step and the main analysis function (normalize.ts 437-551). -/

/-- `new Map(stats.map(stat => [stat.wallet, stat])).get(w)`: the last
record with the given wallet wins (later insertions with the same key
overwrite earlier ones). -/
def mapGet (stats : List ClaimerInfo) (w : String) : Option ClaimerInfo :=
  stats.reverse.find? (fun s => s.wallet == w)

/-- `claimStatsMap.get(wallet)?.totalClaimed || "0"`: the claimed amount
attached to a merged claimer — the looked-up record's `totalClaimed` when
the record exists and the string is truthy (non-empty), else `"0"`. -/
def tcOf (stats : List ClaimerInfo) (w : String) : String :=
  match mapGet stats w with
  | some claimData => if claimData.totalClaimed = "" then "0" else claimData.totalClaimed
  | none => "0"

/-- The merge step of `analyzeToken` (lines 451-464): keep the creators
with positive `royaltyBps`, in order, and attach each one's claimed amount
from the claim-stats lookup. -/
def mergeClaimers (creators stats : List ClaimerInfo) : List ClaimerInfo :=
  (creators.filter (fun c => decide (0 < c.royaltyBps))).map
    (fun c => { c with totalClaimed := tcOf stats c.wallet })

/-- `allClaimers.reduce((sum, stat) => sum + parseInt(stat.totalClaimed, 10), 0)`:
`NaN` (`none`) as soon as one claimed amount fails to parse. -/
def sumTotalClaimed (claimers : List ClaimerInfo) : Option ℤ :=
  claimers.foldl
    (fun sum c =>
      match sum, jsParseInt c.totalClaimed with
      | some a, some b => some (a + b)
      | _, _ => none)
    (some 0)

/-- `reduce((sum, stat) => sum + stat.royaltyBps, 0)` over all claimers. -/
def totalRoyaltyBpsOf (claimers : List ClaimerInfo) : ℤ :=
  (claimers.map (fun c => c.royaltyBps)).sum

/-- The same sum restricted to the claimers with `isCreator`. -/
def creatorRoyaltyBpsOf (claimers : List ClaimerInfo) : ℤ :=
  ((claimers.filter (fun c => c.isCreator)).map (fun c => c.royaltyBps)).sum

/-- Stable insertion for the royalty-descending sort: a later element goes
after every already-placed element with an equal or larger key. -/
def insertByRoyaltyDesc (x : ClaimerInfo) : List ClaimerInfo → List ClaimerInfo
  | [] => [x]
  | y :: ys =>
    if y.royaltyBps ≤ x.royaltyBps then x :: y :: ys
    else y :: insertByRoyaltyDesc x ys

/-- `[...allClaimers].sort((a, b) => b.royaltyBps - a.royaltyBps)`:
JavaScript `Array.prototype.sort` is stable, and the stable
royalty-descending ordering of a list is unique, so stable insertion sort
is an exact model of the source's sort call. -/
def sortByRoyaltyDesc : List ClaimerInfo → List ClaimerInfo
  | [] => []
  | x :: xs => insertByRoyaltyDesc x (sortByRoyaltyDesc xs)

/-- Function analyzeToken (normalize.ts lines 437-551), the main analysis
function, with `Date.now()` and the host date functions supplied by
`env`.  This total function is the snapshot of the non-throwing
executions: when the last-claim scan throws (RangeError from
`toISOString` on an out-of-range numeric timestamp) the source produces
no snapshot at all — that path is carried by `analyzeTokenE` below, and
here the thrown case is completed with an absent last-claim field. -/
def analyzeToken (env : JsEnv) (rawData : RawData) : TokenAnalysis :=
  let allClaimers := mergeClaimers rawData.creators rawData.claimStats
  let lifetimeFeesSOL := lamportsToSOL rawData.lifetimeFees
  let totalClaimedLamports := sumTotalClaimed allClaimers
  let totalClaimedSOL := totalClaimedLamports.map (fun n => (n : ℚ) / LAMPORTS_PER_SOL)
  let claimedPct :=
    if jlt (some 0) lifetimeFeesSOL then jmul (jdiv totalClaimedSOL lifetimeFeesSOL) (some 100)
    else some 0
  let unclaimedPct := jsub (some 100) claimedPct
  let totalRoyaltyBps := totalRoyaltyBpsOf allClaimers
  let creatorRoyaltyBps := creatorRoyaltyBpsOf allClaimers
  let creatorSharePct :=
    if 0 < totalRoyaltyBps then some ((creatorRoyaltyBps : ℚ) / (totalRoyaltyBps : ℚ) * 100)
    else some 0
  let nonCreatorSharePct := jsub (some 100) creatorSharePct
  let sortedByRoyalty := sortByRoyaltyDesc allClaimers
  let top1ClaimerPct :=
    match sortedByRoyalty.head? with
    | some top =>
      if 0 < totalRoyaltyBps then some ((top.royaltyBps : ℚ) / (totalRoyaltyBps : ℚ) * 100)
      else some 0
    | none => some 0
  let top5RoyaltyBps : ℤ := ((sortedByRoyalty.take 5).map (fun c => c.royaltyBps)).sum
  let top5ClaimerPct :=
    if 0 < totalRoyaltyBps then some ((top5RoyaltyBps : ℚ) / (totalRoyaltyBps : ℚ) * 100)
    else some 0
  let claimCount24h := getClaimCount24h env rawData.claimEvents.events
  let lastClaimTimestamp :=
    match getLastClaimTimestamp env rawData.claimEventsRecent.events with
    | Except.ok r => r
    | Except.error _ => none
  let totalClaimers := allClaimers.length
  let activityStatus := getActivityStatus env claimCount24h lastClaimTimestamp
  let vr := calculateVerdict lifetimeFeesSOL top1ClaimerPct top5ClaimerPct allClaimers
  let pattern :=
    determinePattern vr.verdict creatorSharePct top1ClaimerPct totalClaimers claimedPct
  { lifetimeFeesSOL := lifetimeFeesSOL
    claimedPct := claimedPct
    unclaimedPct := unclaimedPct
    creatorSharePct := creatorSharePct
    nonCreatorSharePct := nonCreatorSharePct
    top1ClaimerPct := top1ClaimerPct
    top5ClaimerPct := top5ClaimerPct
    claimCount24h := claimCount24h
    totalClaimers := totalClaimers
    lastClaimTimestamp := lastClaimTimestamp
    activityStatus := activityStatus
    claimers := allClaimers
    verdict := vr.verdict
    summary := vr.summary
    why := vr.why
    pattern := pattern }

/-- The analysis as the caller observes it, throw included: the source's
`analyzeToken` propagates the RangeError thrown by the last-claim scan,
so the faithful result type is `Except`.  On every non-throwing input the
ok value is exactly `analyzeToken` (which reads the ok value of the same
scan), so the two definitions agree wherever the source returns. -/
def analyzeTokenE (env : JsEnv) (rawData : RawData) : Except Unit TokenAnalysis :=
  (getLastClaimTimestamp env rawData.claimEventsRecent.events).map
    (fun _ => analyzeToken env rawData)

/- Concrete inputs used by witnesses and counterexamples below. -/

/-- A fixed host environment for concrete evaluations: epoch `now`, a date
parser rejecting every string, a trivial ISO formatter (the concrete
inputs below carry no events, so neither function is ever consulted). -/
def env0 : JsEnv :=
  { now := 0, dateParse := fun _ => none, toISO := fun _ => "" }

/-- Shorthand for a claimer/creator record with empty display fields. -/
def mkClaimer (w : String) (bps : ℤ) (cr : Bool) (tc : String) : ClaimerInfo :=
  { royaltyBps := bps, isCreator := cr, wallet := w, totalClaimed := tc }

/-- Scenario C of the spec: five claimers with an even 2000-bps split,
10 SOL of lifetime fees, 2 SOL claimed each (one of the five is the
creator). -/
def rawScenarioC : RawData :=
  { lifetimeFees := "10000000000"
    claimStats := [mkClaimer "w1" 2000 true "2000000000", mkClaimer "w2" 2000 false "2000000000",
      mkClaimer "w3" 2000 false "2000000000", mkClaimer "w4" 2000 false "2000000000",
      mkClaimer "w5" 2000 false "2000000000"]
    claimEvents := ⟨[]⟩
    claimEventsRecent := ⟨[]⟩
    creators := [mkClaimer "w1" 2000 true "", mkClaimer "w2" 2000 false "",
      mkClaimer "w3" 2000 false "", mkClaimer "w4" 2000 false "",
      mkClaimer "w5" 2000 false ""] }

/-- One configured claimer whose claim-stats amount `"abc"` does not
parse as a number. -/
def rawBadClaimed : RawData :=
  { lifetimeFees := "1000000000"
    claimStats := [mkClaimer "w" 100 true "abc"]
    claimEvents := ⟨[]⟩
    claimEventsRecent := ⟨[]⟩
    creators := [mkClaimer "w" 100 true ""] }

/-- Two creators configured in ascending royalty order. -/
def rawAscending : RawData :=
  { lifetimeFees := "0"
    claimStats := []
    claimEvents := ⟨[]⟩
    claimEventsRecent := ⟨[]⟩
    creators := [mkClaimer "A" 100 true "", mkClaimer "B" 200 false ""] }

/-- A single claimer who claimed twice the lifetime fees. -/
def rawOverClaimed : RawData :=
  { lifetimeFees := "1000000000"
    claimStats := [mkClaimer "w" 100 true "2000000000"]
    claimEvents := ⟨[]⟩
    claimEventsRecent := ⟨[]⟩
    creators := [mkClaimer "w" 100 true ""] }

/-- A single configured claimer, 1 SOL of lifetime fees, no claim stats. -/
def rawSingle : RawData :=
  { lifetimeFees := "1000000000"
    claimStats := []
    claimEvents := ⟨[]⟩
    claimEventsRecent := ⟨[]⟩
    creators := [mkClaimer "w" 100 true ""] }

/-- The same creator wallet configured twice with positive royalty. -/
def rawDupWallet : RawData :=
  { lifetimeFees := "0"
    claimStats := []
    claimEvents := ⟨[]⟩
    claimEventsRecent := ⟨[]⟩
    creators := [mkClaimer "A" 100 true "", mkClaimer "A" 100 true ""] }

/-- A single recent event whose numeric timestamp (9e12 seconds, i.e.
9e15 ms) exceeds the ECMAScript time-value bound: the source throws a
RangeError on it. -/
def rawHugeTs : RawData :=
  { lifetimeFees := "0"
    claimStats := []
    claimEvents := ⟨[]⟩
    claimEventsRecent := ⟨[⟨TsVal.num 9000000000000⟩]⟩
    creators := [] }

/-- Per-event step function used to characterize the last-claim scan as
a first-match traversal: `none` when the event is skipped (falsy, blank
or unparseable timestamp, non-positive instant, or instant outside the
strict 2020-01-01 .. now+24h window), `some (Except.error ())` when the
numeric timestamp breaks the ECMAScript time-value bound (the RangeError
thrown by `toISOString` before any validity check), and
`some (Except.ok iso)` when the event qualifies — accepting both a
seconds-since-epoch number and a date-time string. -/
def lastClaimStep (env : JsEnv) (e : ClaimEventRec) : Option (Except Unit String) :=
  match e.timestamp with
  | TsVal.num q =>
    if q = 0 then none
    else if MAX_TIME_VALUE < q * 1000 ∨ q * 1000 < -MAX_TIME_VALUE then some (Except.error ())
    else if q * 1000 ≤ 0 then none
    else if MIN_VALID_TIMESTAMP < q * 1000 ∧ q * 1000 < env.now + 86400000 then
      some (Except.ok (env.toISO (q * 1000)))
    else none
  | TsVal.str s =>
    if s = "" then none
    else if jsTrim s = "" then none
    else
      match env.dateParse s with
      | none => none
      | some ms =>
        if ms ≤ 0 then none
        else if MIN_VALID_TIMESTAMP < ms ∧ ms < env.now + 86400000 then some (Except.ok s)
        else none

/- Derived observables: names for the values `analyzeToken` binds
internally, used to state and prove the field characterizations below.
Each equals the corresponding `let` of `analyzeToken` definitionally. -/

/-- The merged claimer list of an input. -/
def mergedOf (raw : RawData) : List ClaimerInfo :=
  mergeClaimers raw.creators raw.claimStats

/-- The lifetime fees of an input, in SOL. -/
def feesOf (raw : RawData) : Option ℚ :=
  lamportsToSOL raw.lifetimeFees

/-- The claimed percentage of an input. -/
def claimedPctOf (raw : RawData) : Option ℚ :=
  if jlt (some 0) (feesOf raw) then
    jmul (jdiv ((sumTotalClaimed (mergedOf raw)).map (fun n => (n : ℚ) / LAMPORTS_PER_SOL))
      (feesOf raw)) (some 100)
  else some 0

/-- The creator share percentage of an input. -/
def creatorSharePctOf (raw : RawData) : Option ℚ :=
  if 0 < totalRoyaltyBpsOf (mergedOf raw) then
    some ((creatorRoyaltyBpsOf (mergedOf raw) : ℚ) / (totalRoyaltyBpsOf (mergedOf raw) : ℚ) * 100)
  else some 0

/-- The top-1 claimer percentage of an input. -/
def top1PctOf (raw : RawData) : Option ℚ :=
  match (sortByRoyaltyDesc (mergedOf raw)).head? with
  | some top =>
    if 0 < totalRoyaltyBpsOf (mergedOf raw) then
      some ((top.royaltyBps : ℚ) / (totalRoyaltyBpsOf (mergedOf raw) : ℚ) * 100)
    else some 0
  | none => some 0

/-- The summed royalty of the first five sorted claimers. -/
def top5BpsOf (raw : RawData) : ℤ :=
  (((sortByRoyaltyDesc (mergedOf raw)).take 5).map (fun c => c.royaltyBps)).sum

/-- The top-5 claimer percentage of an input. -/
def top5PctOf (raw : RawData) : Option ℚ :=
  if 0 < totalRoyaltyBpsOf (mergedOf raw) then
    some ((top5BpsOf raw : ℚ) / (totalRoyaltyBpsOf (mergedOf raw) : ℚ) * 100)
  else some 0

/- Field characterizations of `analyzeToken`: each is definitional. -/

lemma analyzeToken_claimers (env : JsEnv) (raw : RawData) :
    (analyzeToken env raw).claimers = mergedOf raw := rfl

lemma analyzeToken_totalClaimers (env : JsEnv) (raw : RawData) :
    (analyzeToken env raw).totalClaimers = (mergedOf raw).length := rfl

lemma analyzeToken_lifetimeFeesSOL (env : JsEnv) (raw : RawData) :
    (analyzeToken env raw).lifetimeFeesSOL = feesOf raw := rfl

lemma analyzeToken_claimedPct (env : JsEnv) (raw : RawData) :
    (analyzeToken env raw).claimedPct = claimedPctOf raw := rfl

lemma analyzeToken_unclaimedPct (env : JsEnv) (raw : RawData) :
    (analyzeToken env raw).unclaimedPct = jsub (some 100) (claimedPctOf raw) := rfl

lemma analyzeToken_creatorSharePct (env : JsEnv) (raw : RawData) :
    (analyzeToken env raw).creatorSharePct = creatorSharePctOf raw := rfl

lemma analyzeToken_nonCreatorSharePct (env : JsEnv) (raw : RawData) :
    (analyzeToken env raw).nonCreatorSharePct = jsub (some 100) (creatorSharePctOf raw) := rfl

lemma analyzeToken_top1 (env : JsEnv) (raw : RawData) :
    (analyzeToken env raw).top1ClaimerPct = top1PctOf raw := rfl

lemma analyzeToken_top5 (env : JsEnv) (raw : RawData) :
    (analyzeToken env raw).top5ClaimerPct = top5PctOf raw := rfl

lemma analyzeToken_lastClaim (env : JsEnv) (raw : RawData) :
    (analyzeToken env raw).lastClaimTimestamp =
      (match getLastClaimTimestamp env raw.claimEventsRecent.events with
        | Except.ok r => r
        | Except.error _ => none) := rfl

lemma analyzeToken_verdict (env : JsEnv) (raw : RawData) :
    (analyzeToken env raw).verdict =
      (calculateVerdict (feesOf raw) (top1PctOf raw) (top5PctOf raw) (mergedOf raw)).verdict :=
  rfl

/-- The verdict component of `calculateVerdict` is the bare
first-matching-rule ladder (the summary and why strings do not feed back
into the classification). -/
lemma calculateVerdict_verdict (f t1 t5 : Option ℚ) (cs : List ClaimerInfo) :
    (calculateVerdict f t1 t5 cs).verdict =
      if jlt f (some DORMANT_FEE_THRESHOLD_SOL) || cs.length == 0 then Verdict.DORMANT
      else if jlt (some CENTRALIZED_TOP1_THRESHOLD) t1 then Verdict.CENTRALIZED
      else if jlt (some CENTRALIZED_TOP5_THRESHOLD) t5 then Verdict.CENTRALIZED
      else Verdict.HEALTHY := by
  unfold calculateVerdict
  split_ifs <;> rfl

/- Lemmas about the claim-stats lookup and the merge step. -/

lemma mapGet_eq_some {stats : List ClaimerInfo} {w : String} {s : ClaimerInfo}
    (h : mapGet stats w = some s) : s ∈ stats ∧ s.wallet = w := by
  unfold mapGet at h
  refine ⟨List.mem_reverse.mp (List.mem_of_find?_eq_some h), ?_⟩
  have := List.find?_some h
  simpa using this

lemma mapGet_isSome_of_mem {stats : List ClaimerInfo} {c : ClaimerInfo} (hc : c ∈ stats) :
    (mapGet stats c.wallet).isSome := by
  unfold mapGet
  rw [List.find?_isSome]
  exact ⟨c, List.mem_reverse.mpr hc, by simp⟩

lemma tcOf_ne_empty (stats : List ClaimerInfo) (w : String) : tcOf stats w ≠ "" := by
  unfold tcOf
  cases h : mapGet stats w with
  | none => decide
  | some cd =>
    dsimp only
    split_ifs with h2
    · decide
    · exact h2

lemma tcOf_none {stats : List ClaimerInfo} {w : String} (h : mapGet stats w = none) :
    tcOf stats w = "0" := by
  unfold tcOf
  rw [h]

lemma tcOf_some_ne {stats : List ClaimerInfo} {w : String} {s : ClaimerInfo}
    (h : mapGet stats w = some s) (hne : s.totalClaimed ≠ "") :
    tcOf stats w = s.totalClaimed := by
  unfold tcOf
  rw [h]
  simp [hne]

lemma mem_mergeClaimers {cr st : List ClaimerInfo} {e : ClaimerInfo} :
    e ∈ mergeClaimers cr st ↔
      ∃ c ∈ cr, 0 < c.royaltyBps ∧ e = { c with totalClaimed := tcOf st c.wallet } := by
  unfold mergeClaimers
  simp only [List.mem_map, List.mem_filter, decide_eq_true_eq]
  constructor
  · rintro ⟨c, ⟨hc, hpos⟩, rfl⟩
    exact ⟨c, hc, hpos, rfl⟩
  · rintro ⟨c, hc, hpos, rfl⟩
    exact ⟨c, ⟨hc, hpos⟩, rfl⟩

lemma mergeClaimers_mem_pos {cr st : List ClaimerInfo} {e : ClaimerInfo}
    (h : e ∈ mergeClaimers cr st) : 0 < e.royaltyBps := by
  rcases mem_mergeClaimers.mp h with ⟨c, _, hpos, rfl⟩
  exact hpos

lemma mergeClaimers_mem_tc {cr st : List ClaimerInfo} {e : ClaimerInfo}
    (h : e ∈ mergeClaimers cr st) : e.totalClaimed = tcOf st e.wallet := by
  rcases mem_mergeClaimers.mp h with ⟨c, _, _, rfl⟩
  rfl

lemma mergeClaimers_mem_creator {cr st : List ClaimerInfo} {e : ClaimerInfo}
    (h : e ∈ mergeClaimers cr st) :
    ∃ c ∈ cr, c.wallet = e.wallet ∧ c.royaltyBps = e.royaltyBps := by
  rcases mem_mergeClaimers.mp h with ⟨c, hc, _, rfl⟩
  exact ⟨c, hc, rfl, rfl⟩

lemma mergeClaimers_map_wallet (cr st : List ClaimerInfo) :
    (mergeClaimers cr st).map (fun c => c.wallet) =
      (cr.filter (fun c => decide (0 < c.royaltyBps))).map (fun c => c.wallet) := by
  unfold mergeClaimers
  rw [List.map_map]
  rfl

/- Lemmas about the stable royalty-descending sort. -/

lemma insertByRoyaltyDesc_perm (x : ClaimerInfo) (l : List ClaimerInfo) :
    (insertByRoyaltyDesc x l).Perm (x :: l) := by
  induction l with
  | nil => exact List.Perm.refl _
  | cons y ys ih =>
    unfold insertByRoyaltyDesc
    split_ifs with h
    · exact List.Perm.refl _
    · exact (List.Perm.cons y ih).trans (List.Perm.swap x y ys)

lemma sortByRoyaltyDesc_perm (l : List ClaimerInfo) : (sortByRoyaltyDesc l).Perm l := by
  induction l with
  | nil => exact List.Perm.refl _
  | cons x xs ih =>
    unfold sortByRoyaltyDesc
    exact (insertByRoyaltyDesc_perm x _).trans (List.Perm.cons x ih)

lemma totalRoyaltyBpsOf_pos {cr st : List ClaimerInfo} (hne : mergeClaimers cr st ≠ []) :
    0 < totalRoyaltyBpsOf (mergeClaimers cr st) := by
  unfold totalRoyaltyBpsOf
  apply List.sum_pos
  · intro x hx
    rcases List.mem_map.mp hx with ⟨e, he, rfl⟩
    exact mergeClaimers_mem_pos he
  · simpa using hne

lemma top5BpsOf_eq_total {raw : RawData} (hlen : (mergedOf raw).length ≤ 5) :
    top5BpsOf raw = totalRoyaltyBpsOf (mergedOf raw) := by
  unfold top5BpsOf totalRoyaltyBpsOf
  have hp := sortByRoyaltyDesc_perm (mergedOf raw)
  have hl : (sortByRoyaltyDesc (mergedOf raw)).length ≤ 5 := by
    rw [hp.length_eq]
    exact hlen
  rw [List.take_of_length_le hl]
  exact (hp.map (fun c => c.royaltyBps)).sum_eq

lemma string_length_data (s : String) : s.length = s.data.length := rfl

/-- C5: the Validator returns true for a candidate string exactly when,
after trimming surrounding whitespace, its length is between 32 and 44
inclusive and every character is in the Base58 alphabet (digits and
letters excluding 0, O, I, l); in particular it is false for the empty
string, for trimmed length 31 or 45, and for any trimmed string containing
a character outside that alphabet.  (Null and non-string inputs are
excluded by the Lean type, matching the source's `typeof` guard.) -/
theorem isValidTokenMint_iff (s : String) :
    isValidTokenMint s = true ↔
      32 ≤ (jsTrim s).length ∧ (jsTrim s).length ≤ 44 ∧
        ∀ c ∈ (jsTrim s).data, isBase58Char c = true := by
  unfold isValidTokenMint
  by_cases hs : s = ""
  · subst hs
    decide
  · rw [if_neg hs]
    show (if (jsTrim s).length < 32 || (jsTrim s).length > 44 then false
      else base58Test (jsTrim s)) = true ↔ _
    by_cases h1 : (jsTrim s).length < 32 || (jsTrim s).length > 44
    · rw [if_pos h1]
      simp only [Bool.or_eq_true, decide_eq_true_eq] at h1
      constructor
      · intro hF
        exact absurd hF (by simp)
      · rintro ⟨h32, h44, -⟩
        exfalso
        rcases h1 with h | h <;> omega
    · rw [if_neg h1]
      simp only [Bool.or_eq_true, decide_eq_true_eq, not_or, not_lt] at h1
      obtain ⟨h32, h44⟩ := h1
      unfold base58Test
      rw [Bool.and_eq_true, List.all_eq_true]
      constructor
      · rintro ⟨-, hall⟩
        exact ⟨h32, h44, hall⟩
      · rintro ⟨-, -, hall⟩
        refine ⟨?_, hall⟩
        rw [string_length_data] at h32
        cases hd : (jsTrim s).data with
        | nil =>
          rw [hd] at h32
          simp at h32
        | cons a as => simp [hd]

/-- C5 witness: a 43-character Base58 string is accepted. -/
theorem isValidTokenMint_iff_witness :
    isValidTokenMint "So11111111111111111111111111111111111111112" = true :=
  (isValidTokenMint_iff "So11111111111111111111111111111111111111112").mpr (by decide)

/-- C1: for every input the verdict is the first-matching-rule ladder, in
this order: DORMANT when `lifetimeFeesSOL < 0.1` (JS comparison: false on
NaN) or the merged claimer count is 0; else CENTRALIZED when
`top1Pct > 50`; else CENTRALIZED when `top5Pct > 80`; else HEALTHY. -/
theorem analyzeToken_verdict_ladder (env : JsEnv) (raw : RawData) :
    (analyzeToken env raw).verdict =
      if jlt (analyzeToken env raw).lifetimeFeesSOL (some (1 / 10))
          || ((analyzeToken env raw).totalClaimers == 0) then Verdict.DORMANT
      else if jlt (some 50) (analyzeToken env raw).top1ClaimerPct then Verdict.CENTRALIZED
      else if jlt (some 80) (analyzeToken env raw).top5ClaimerPct then Verdict.CENTRALIZED
      else Verdict.HEALTHY := by
  rw [analyzeToken_verdict, calculateVerdict_verdict]
  rfl

/-- C3 counterexample: on the Scenario C input (five even 2000-bps
claimers), the engine's verdict is CENTRALIZED — the top-5 rule
(`top5Pct = 100 > 80`) fires before the HEALTHY fallback — not HEALTHY as
the scenario asserts. -/
theorem scenarioC_not_healthy :
    (analyzeToken env0 rawScenarioC).verdict = Verdict.CENTRALIZED ∧
      (analyzeToken env0 rawScenarioC).verdict ≠ Verdict.HEALTHY := by
  decide

/-- C3 amended: on the Scenario C input the engine produces
`top1Pct = 20`, `top5Pct = 100`, `claimedPct = 100`, pattern
"Broad distribution", and verdict CENTRALIZED (not HEALTHY: with five
claimers the top-5 share is the whole distribution, so the `top5 > 80`
rule fires). -/
theorem scenarioC_values :
    (analyzeToken env0 rawScenarioC).top1ClaimerPct = some 20 ∧
      (analyzeToken env0 rawScenarioC).top5ClaimerPct = some 100 ∧
      (analyzeToken env0 rawScenarioC).claimedPct = some 100 ∧
      (analyzeToken env0 rawScenarioC).verdict = Verdict.CENTRALIZED ∧
      (analyzeToken env0 rawScenarioC).pattern = DistPattern.BroadDistribution := by
  decide

/-- C6 counterexample: with two creators configured in ascending royalty
order (100 bps then 200 bps) the output claimers list is in creators
order, hence not sorted by royalty descending. -/
theorem claimers_not_sorted_counterexample :
    ¬ List.Pairwise (fun a b : ClaimerInfo => b.royaltyBps ≤ a.royaltyBps)
        (analyzeToken env0 rawAscending).claimers := by
  decide

/-- C6 amended: the output claimers list is the merged list in the
original creators order — the positive-royalty subsequence of the
creators input — and is not sorted by royalty; the royalty-descending
sorted copy exists only internally, for the top-1/top-5 figures. -/
theorem claimers_in_creators_order (env : JsEnv) (raw : RawData) :
    (analyzeToken env raw).claimers.map (fun c => c.wallet) =
        (raw.creators.filter (fun c => decide (0 < c.royaltyBps))).map (fun c => c.wallet) ∧
      List.Sublist ((analyzeToken env raw).claimers.map (fun c => c.wallet))
        (raw.creators.map (fun c => c.wallet)) := by
  rw [analyzeToken_claimers]
  unfold mergedOf
  rw [mergeClaimers_map_wallet]
  exact ⟨rfl, List.Sublist.map _ (List.filter_sublist _)⟩

/-- C4 counterexample: with one configured claimer whose claim-stats
totalClaimed is the unparseable string "abc" and 1 SOL of lifetime fees,
the unparseable amount is not treated as zero: NaN propagates through the
summation into claimedPct and unclaimedPct. -/
theorem nan_claimed_counterexample :
    (analyzeToken env0 rawBadClaimed).claimedPct = none ∧
      (analyzeToken env0 rawBadClaimed).unclaimedPct = none := by
  decide

lemma sumTotalClaimed_ne_none {l : List ClaimerInfo}
    (h : ∀ c ∈ l, jsParseInt c.totalClaimed ≠ none) : sumTotalClaimed l ≠ none := by
  unfold sumTotalClaimed
  suffices hgen : ∀ a : ℤ,
      l.foldl (fun sum c =>
        match sum, jsParseInt c.totalClaimed with
        | some a, some b => some (a + b)
        | _, _ => none) (some a) ≠ none by
    exact hgen 0
  induction l with
  | nil => intro a; simp
  | cons c cs ih =>
    intro a
    have hc := h c (List.mem_cons_self c cs)
    cases hp : jsParseInt c.totalClaimed with
    | none => exact absurd hp hc
    | some b =>
      rw [List.foldl_cons]
      have hstep :
          (match some a, jsParseInt c.totalClaimed with
            | some a, some b => some (a + b)
            | _, _ => (none : Option ℤ)) = some (a + b) := by
        rw [hp]
      rw [hstep]
      exact ih (fun x hx => h x (List.mem_cons_of_mem _ hx)) (a + b)

lemma creatorSharePctOf_isSome (raw : RawData) : ∃ q, creatorSharePctOf raw = some q := by
  unfold creatorSharePctOf
  split_ifs
  · exact ⟨_, rfl⟩
  · exact ⟨_, rfl⟩

lemma top1PctOf_isSome (raw : RawData) : ∃ q, top1PctOf raw = some q := by
  unfold top1PctOf
  cases (sortByRoyaltyDesc (mergedOf raw)).head? with
  | none => exact ⟨_, rfl⟩
  | some top =>
    dsimp only
    split_ifs
    · exact ⟨_, rfl⟩
    · exact ⟨_, rfl⟩

lemma top5PctOf_isSome (raw : RawData) : ∃ q, top5PctOf raw = some q := by
  unfold top5PctOf
  split_ifs
  · exact ⟨_, rfl⟩
  · exact ⟨_, rfl⟩

/-- C4 amended: the engine is total on well-typed input except that NaN
from an unparseable claimer totalClaimed propagates.  Precisely: (a) if
the lifetimeFees string does not parse, claimedPct defaults to 0 and
unclaimedPct to 100 (the positive-fees guard absorbs the NaN, though the
lifetimeFeesSOL field itself is NaN); (b) if every merged claimer's
totalClaimed parses and lifetimeFees parses, then lifetimeFeesSOL,
claimedPct and unclaimedPct are all defined numbers; (c) the share and
top-N fields are always defined numbers. -/
theorem analyzeToken_total_defaults (env : JsEnv) (raw : RawData) :
    (jsParseInt raw.lifetimeFees = none →
        (analyzeToken env raw).claimedPct = some 0 ∧
          (analyzeToken env raw).unclaimedPct = some 100) ∧
      ((∀ c ∈ mergedOf raw, jsParseInt c.totalClaimed ≠ none) →
        jsParseInt raw.lifetimeFees ≠ none →
        ((analyzeToken env raw).lifetimeFeesSOL ≠ none ∧
          (analyzeToken env raw).claimedPct ≠ none ∧
          (analyzeToken env raw).unclaimedPct ≠ none)) ∧
      ((analyzeToken env raw).creatorSharePct ≠ none ∧
        (analyzeToken env raw).nonCreatorSharePct ≠ none ∧
        (analyzeToken env raw).top1ClaimerPct ≠ none ∧
        (analyzeToken env raw).top5ClaimerPct ≠ none) := by
  refine ⟨?_, ?_, ?_⟩
  · intro hnone
    have hfees : feesOf raw = none := by
      unfold feesOf lamportsToSOL
      rw [hnone]
      rfl
    have hclaimed : claimedPctOf raw = some 0 := by
      unfold claimedPctOf
      rw [hfees]
      rfl
    refine ⟨?_, ?_⟩
    · rw [analyzeToken_claimedPct, hclaimed]
    · rw [analyzeToken_unclaimedPct, hclaimed]
      rfl
  · intro hall hfee
    obtain ⟨n, hn⟩ := Option.ne_none_iff_exists'.mp hfee
    have hfees : feesOf raw = some ((n : ℚ) / LAMPORTS_PER_SOL) := by
      unfold feesOf lamportsToSOL
      rw [hn]
      rfl
    refine ⟨?_, ?_, ?_⟩
    · rw [analyzeToken_lifetimeFeesSOL, hfees]
      simp
    · rw [analyzeToken_claimedPct]
      unfold claimedPctOf
      split_ifs with hpos
      · obtain ⟨k, hk⟩ := Option.ne_none_iff_exists'.mp (sumTotalClaimed_ne_none hall)
        rw [hk, hfees]
        simp [jdiv, jmul]
      · simp
    · rw [analyzeToken_unclaimedPct]
      have : ∃ q, claimedPctOf raw = some q := by
        unfold claimedPctOf
        split_ifs with hpos
        · obtain ⟨k, hk⟩ := Option.ne_none_iff_exists'.mp (sumTotalClaimed_ne_none hall)
          rw [hk, hfees]
          exact ⟨_, rfl⟩
        · exact ⟨_, rfl⟩
      obtain ⟨q, hq⟩ := this
      rw [hq]
      simp [jsub]
  · obtain ⟨q1, h1⟩ := creatorSharePctOf_isSome raw
    obtain ⟨q2, h2⟩ := top1PctOf_isSome raw
    obtain ⟨q3, h3⟩ := top5PctOf_isSome raw
    refine ⟨?_, ?_, ?_, ?_⟩
    · rw [analyzeToken_creatorSharePct, h1]
      simp
    · rw [analyzeToken_nonCreatorSharePct, h1]
      simp [jsub]
    · rw [analyzeToken_top1, h2]
      simp
    · rw [analyzeToken_top5, h3]
      simp

/-- C4 witness: on a fully parseable input the claimed percentage is a
defined number. -/
theorem analyzeToken_total_defaults_witness :
    (analyzeToken env0 rawSingle).claimedPct ≠ none :=
  ((analyzeToken_total_defaults env0 rawSingle).2.1 (by decide) (by decide)).2.1

/-- C9 counterexample: when claimedPct is NaN (unparseable claimer
totalClaimed with positive lifetime fees), claimedPct + unclaimedPct is
NaN, not 100. -/
theorem claimed_plus_unclaimed_nan_counterexample :
    jadd (analyzeToken env0 rawBadClaimed).claimedPct
        (analyzeToken env0 rawBadClaimed).unclaimedPct ≠ some 100 := by
  decide

/-- C9 amended: whenever claimedPct is a defined number (non-NaN),
claimedPct + unclaimedPct equals exactly 100, including when claimedPct
exceeds 100 and unclaimedPct is negative (no clamping). -/
theorem claimed_plus_unclaimed (env : JsEnv) (raw : RawData) (q : ℚ)
    (h : (analyzeToken env raw).claimedPct = some q) :
    jadd (analyzeToken env raw).claimedPct (analyzeToken env raw).unclaimedPct = some 100 := by
  have h2 : (analyzeToken env raw).unclaimedPct = jsub (some 100) (some q) := by
    rw [analyzeToken_unclaimedPct, ← analyzeToken_claimedPct env raw, h]
  rw [h, h2]
  show some (q + (100 - q)) = some 100
  norm_num

/-- C9 witness: a claimer who claimed twice the lifetime fees gives
claimedPct = 200 and unclaimedPct = −100, still summing to exactly 100. -/
theorem claimed_plus_unclaimed_witness :
    jadd (analyzeToken env0 rawOverClaimed).claimedPct
        (analyzeToken env0 rawOverClaimed).unclaimedPct = some 100 :=
  claimed_plus_unclaimed env0 rawOverClaimed 200 (by decide)

/-- C8: when the merged claimer list is non-empty with at most five
entries, the top-5 share is exactly 100 percent (every merged claimer has
positive royalty, and the top-five slice is the whole list); consequently,
whenever lifetimeFeesSOL is a number ≥ 0.1, the verdict is CENTRALIZED
and never HEALTHY. -/
theorem top5_full_when_few (env : JsEnv) (raw : RawData)
    (h1 : (analyzeToken env raw).claimers ≠ [])
    (h2 : (analyzeToken env raw).claimers.length ≤ 5) :
    (analyzeToken env raw).top5ClaimerPct = some 100 ∧
      ∀ q, (analyzeToken env raw).lifetimeFeesSOL = some q → 1 / 10 ≤ q →
        (analyzeToken env raw).verdict = Verdict.CENTRALIZED := by
  rw [analyzeToken_claimers] at h1 h2
  have hne : mergeClaimers raw.creators raw.claimStats ≠ [] := h1
  have hpos : 0 < totalRoyaltyBpsOf (mergedOf raw) := totalRoyaltyBpsOf_pos hne
  have htop5 : top5PctOf raw = some 100 := by
    unfold top5PctOf
    rw [if_pos hpos, top5BpsOf_eq_total h2, div_self, one_mul]
    exact Int.cast_ne_zero.mpr (ne_of_gt hpos)
  refine ⟨by rw [analyzeToken_top5]; exact htop5, ?_⟩
  intro q hq hge
  rw [analyzeToken_verdict, calculateVerdict_verdict]
  have hfees : feesOf raw = some q := by
    rw [← analyzeToken_lifetimeFeesSOL env raw]
    exact hq
  have hlen : ((mergedOf raw).length == 0) = false := by
    have hne' : (mergedOf raw).length ≠ 0 := by
      simpa [List.length_eq_zero] using h1
    exact beq_eq_false_iff_ne.mpr hne'
  have hjlt : jlt (feesOf raw) (some DORMANT_FEE_THRESHOLD_SOL) = false := by
    rw [hfees]
    show decide (q < DORMANT_FEE_THRESHOLD_SOL) = false
    exact decide_eq_false (not_lt.mpr hge)
  rw [hjlt, hlen]
  have hc3 : jlt (some CENTRALIZED_TOP5_THRESHOLD) (top5PctOf raw) = true := by
    rw [htop5]
    decide
  simp only [Bool.or_self, Bool.false_eq_true, if_false]
  split_ifs with hA
  · rfl
  · rfl

/-- C8 witness: a single 100-bps claimer with 1 SOL of lifetime fees gets
top5 = 100 and verdict CENTRALIZED. -/
theorem top5_full_when_few_witness :
    (analyzeToken env0 rawSingle).top5ClaimerPct = some 100 ∧
      (analyzeToken env0 rawSingle).verdict = Verdict.CENTRALIZED := by
  have h := top5_full_when_few env0 rawSingle (by decide) (by decide)
  exact ⟨h.1, h.2 1 (by decide) (by norm_num)⟩

lemma tcOf_some_empty {stats : List ClaimerInfo} {w : String} {s : ClaimerInfo}
    (h : mapGet stats w = some s) (he : s.totalClaimed = "") : tcOf stats w = "0" := by
  unfold tcOf
  rw [h]
  simp [he]

/-- C2 counterexample: the merge does not deduplicate — a wallet
configured twice in creators (both entries with positive royalty) appears
twice in the output claimers list. -/
theorem merge_dup_wallet_counterexample :
    ¬ ((analyzeToken env0 rawDupWallet).claimers.map (fun c => c.wallet)).Nodup := by
  decide

/-- C2 amended: for every input whose creators list has pairwise-distinct
wallets, every output claimer has royaltyBps > 0 and comes from a creators
entry with the same wallet and royalty (so claim-stats-only wallets and
zero-royalty wallets never appear); its totalClaimed is the looked-up
claim-stats record's totalClaimed when such a record exists with a
non-empty value, and "0" when there is no record or the record's value is
the empty string (the || "0" coercion); and no wallet appears twice in
the output. -/
theorem merge_invariants (env : JsEnv) (raw : RawData)
    (hnd : (raw.creators.map (fun c => c.wallet)).Nodup) :
    (∀ e ∈ (analyzeToken env raw).claimers,
        0 < e.royaltyBps ∧
          (∃ c ∈ raw.creators, c.wallet = e.wallet ∧ c.royaltyBps = e.royaltyBps) ∧
          (mapGet raw.claimStats e.wallet = none → e.totalClaimed = "0") ∧
          (∀ s, mapGet raw.claimStats e.wallet = some s → s.totalClaimed ≠ "" →
            e.totalClaimed = s.totalClaimed) ∧
          (∀ s, mapGet raw.claimStats e.wallet = some s → s.totalClaimed = "" →
            e.totalClaimed = "0")) ∧
      ((analyzeToken env raw).claimers.map (fun c => c.wallet)).Nodup := by
  rw [analyzeToken_claimers]
  unfold mergedOf
  constructor
  · intro e he
    refine ⟨mergeClaimers_mem_pos he, mergeClaimers_mem_creator he, ?_, ?_, ?_⟩
    · intro hnone
      rw [mergeClaimers_mem_tc he, tcOf_none hnone]
    · intro s hsome hne
      rw [mergeClaimers_mem_tc he, tcOf_some_ne hsome hne]
    · intro s hsome hemp
      rw [mergeClaimers_mem_tc he, tcOf_some_empty hsome hemp]
  · rw [mergeClaimers_map_wallet]
    exact hnd.sublist (List.Sublist.map _ (List.filter_sublist _))

/-- C2 witness: with two distinct configured wallets the output wallets
are distinct. -/
theorem merge_invariants_witness :
    ((analyzeToken env0 rawAscending).claimers.map (fun c => c.wallet)).Nodup :=
  (merge_invariants env0 rawAscending (by decide)).2

lemma getLastClaimTimestamp_eq_findSome (env : JsEnv) (events : List ClaimEventRec) :
    getLastClaimTimestamp env events =
      (match events.findSome? (lastClaimStep env) with
        | none => Except.ok none
        | some (Except.error e) => Except.error e
        | some (Except.ok s) => Except.ok (some s)) := by
  induction events with
  | nil => rfl
  | cons e rest ih =>
    rw [List.findSome?_cons]
    rcases e with ⟨ts⟩
    rcases ts with q | s
    · simp only [getLastClaimTimestamp, lastClaimStep]
      split_ifs <;> simp [ih]
    · simp only [getLastClaimTimestamp, lastClaimStep]
      cases hdp : env.dateParse s with
      | none => split_ifs <;> simp [ih]
      | some ms =>
        split_ifs with hs1 hs2
        · simp [ih]
        · simp [ih]
        · dsimp only
          split_ifs <;> simp [ih]

/-- C7 counterexample: a recent event carrying the numeric timestamp
9e12 seconds (9e15 ms, beyond the ECMAScript time-value bound) does not
qualify, yet the analysis does not report an absent last-claim field —
it aborts with the RangeError thrown by `toISOString` before the
validity checks. -/
theorem lastClaim_throw_counterexample :
    getLastClaimTimestamp env0 rawHugeTs.claimEventsRecent.events = Except.error () ∧
      analyzeTokenE env0 rawHugeTs = Except.error () :=
  ⟨rfl, rfl⟩

/-- C7 amended: the last-claim scan reads the recent-events list only and
is a first-match traversal of it: the first event either aborts the whole
analysis (numeric timestamp beyond the ECMAScript time-value bound — a
RangeError thrown before any validity check) or is returned when its
normalized instant — accepting both seconds-since-epoch numbers and
date-time strings — lies strictly between 2020-01-01T00:00:00Z and
now + 24 hours, all other events being skipped; on a non-throwing scan
the snapshot exists and carries the scan result (absent when no event
qualifies, in particular on an empty list); a throwing scan aborts the
analysis; and the 24h-windowed list never influences any of this. -/
theorem lastClaim_first_match (env : JsEnv) (raw : RawData) (ev24 : EventsList) :
    (getLastClaimTimestamp env raw.claimEventsRecent.events =
        (match raw.claimEventsRecent.events.findSome? (lastClaimStep env) with
          | none => Except.ok none
          | some (Except.error e) => Except.error e
          | some (Except.ok s) => Except.ok (some s))) ∧
      (∀ lc, getLastClaimTimestamp env raw.claimEventsRecent.events = Except.ok lc →
        analyzeTokenE env raw = Except.ok (analyzeToken env raw) ∧
          (analyzeToken env raw).lastClaimTimestamp = lc) ∧
      (getLastClaimTimestamp env raw.claimEventsRecent.events = Except.error () →
        analyzeTokenE env raw = Except.error ()) ∧
      (analyzeToken env { raw with claimEvents := ev24 }).lastClaimTimestamp =
        (analyzeToken env raw).lastClaimTimestamp ∧
      (analyzeTokenE env { raw with claimEvents := ev24 }).map
          (fun t => t.lastClaimTimestamp) =
        (analyzeTokenE env raw).map (fun t => t.lastClaimTimestamp) ∧
      getLastClaimTimestamp env [] = Except.ok none := by
  refine ⟨getLastClaimTimestamp_eq_findSome env _, ?_, ?_, ?_, ?_, rfl⟩
  · intro lc h
    constructor
    · show (getLastClaimTimestamp env raw.claimEventsRecent.events).map
        (fun _ => analyzeToken env raw) = Except.ok (analyzeToken env raw)
      rw [h]
      rfl
    · rw [analyzeToken_lastClaim, h]
  · intro h
    show (getLastClaimTimestamp env raw.claimEventsRecent.events).map
      (fun _ => analyzeToken env raw) = Except.error ()
    rw [h]
    rfl
  · rw [analyzeToken_lastClaim, analyzeToken_lastClaim]
  · show Except.map (fun t => t.lastClaimTimestamp)
        (Except.map (fun _ => analyzeToken env { raw with claimEvents := ev24 })
          (getLastClaimTimestamp env raw.claimEventsRecent.events)) =
      Except.map (fun t => t.lastClaimTimestamp)
        (Except.map (fun _ => analyzeToken env raw)
          (getLastClaimTimestamp env raw.claimEventsRecent.events))
    cases h : getLastClaimTimestamp env raw.claimEventsRecent.events with
    | error e => rfl
    | ok r =>
      show Except.ok (analyzeToken env { raw with claimEvents := ev24 }).lastClaimTimestamp =
        Except.ok (analyzeToken env raw).lastClaimTimestamp
      rw [analyzeToken_lastClaim, analyzeToken_lastClaim]

/-- C7 witness: on an input with no recent events the scan does not throw
and the snapshot exists with an absent last-claim field. -/
theorem lastClaim_first_match_witness :
    analyzeTokenE env0 rawSingle = Except.ok (analyzeToken env0 rawSingle) ∧
      (analyzeToken env0 rawSingle).lastClaimTimestamp = none :=
  (lastClaim_first_match env0 rawSingle ⟨[]⟩).2.1 none (by rfl)

lemma update_totalClaimed_self (c : ClaimerInfo) :
    { c with totalClaimed := c.totalClaimed } = c := by
  rcases c with ⟨u, p, r, ic, w, tc, pr, pu⟩
  rfl

lemma mergeClaimers_dup_tc {cr st : List ClaimerInfo} {a b : ClaimerInfo}
    (ha : a ∈ mergeClaimers cr st) (hb : b ∈ mergeClaimers cr st)
    (hw : a.wallet = b.wallet) : a.totalClaimed = b.totalClaimed := by
  rw [mergeClaimers_mem_tc ha, mergeClaimers_mem_tc hb, hw]

/-- Re-merging a merged list with itself (as both the configuration and
the claim-stats source) reproduces it exactly: every member has positive
royalty, a non-empty totalClaimed, and members sharing a wallet share
their totalClaimed, so the lookup rewrites each record to itself. -/
lemma mergeClaimers_self (cr st : List ClaimerInfo) :
    mergeClaimers (mergeClaimers cr st) (mergeClaimers cr st) = mergeClaimers cr st := by
  set l := mergeClaimers cr st with hl
  have hfilter : l.filter (fun c => decide (0 < c.royaltyBps)) = l := by
    rw [List.filter_eq_self]
    intro a ha
    simpa using mergeClaimers_mem_pos (hl ▸ ha)
  have hpoint : ∀ c ∈ l, { c with totalClaimed := tcOf l c.wallet } = c := by
    intro c hc
    have hc' : c ∈ mergeClaimers cr st := hl ▸ hc
    obtain ⟨s, hs⟩ := Option.isSome_iff_exists.mp (mapGet_isSome_of_mem hc)
    obtain ⟨hsmem, hsw⟩ := mapGet_eq_some hs
    have hsmem' : s ∈ mergeClaimers cr st := hl ▸ hsmem
    have hne : s.totalClaimed ≠ "" := by
      rw [mergeClaimers_mem_tc hsmem']
      exact tcOf_ne_empty _ _
    have htc : tcOf l c.wallet = s.totalClaimed := tcOf_some_ne hs hne
    have heq : s.totalClaimed = c.totalClaimed := mergeClaimers_dup_tc hsmem' hc' hsw
    rw [htc, heq]
  calc mergeClaimers l l
      = (l.filter (fun c => decide (0 < c.royaltyBps))).map
          (fun c => { c with totalClaimed := tcOf l c.wallet }) := rfl
    _ = l.map (fun c => { c with totalClaimed := tcOf l c.wallet }) := by rw [hfilter]
    _ = l.map id := List.map_congr_left (fun c hc => hpoint c hc)
    _ = l := List.map_id l

lemma analyzeToken_same_merge_fields (env : JsEnv) {raw raw' : RawData}
    (hm : mergedOf raw' = mergedOf raw) (hf : raw'.lifetimeFees = raw.lifetimeFees) :
    (analyzeToken env raw').claimedPct = (analyzeToken env raw).claimedPct ∧
      (analyzeToken env raw').creatorSharePct = (analyzeToken env raw).creatorSharePct ∧
      (analyzeToken env raw').top1ClaimerPct = (analyzeToken env raw).top1ClaimerPct ∧
      (analyzeToken env raw').top5ClaimerPct = (analyzeToken env raw).top5ClaimerPct := by
  have hfees : feesOf raw' = feesOf raw := by
    unfold feesOf
    rw [hf]
  refine ⟨?_, ?_, ?_, ?_⟩
  · rw [analyzeToken_claimedPct, analyzeToken_claimedPct]
    unfold claimedPctOf
    rw [hm, hfees]
  · rw [analyzeToken_creatorSharePct, analyzeToken_creatorSharePct]
    unfold creatorSharePctOf
    rw [hm]
  · rw [analyzeToken_top1, analyzeToken_top1]
    unfold top1PctOf
    rw [hm]
  · rw [analyzeToken_top5, analyzeToken_top5]
    unfold top5PctOf top5BpsOf
    rw [hm]

/-- C10: the merge is idempotent — feeding the engine's own output
claimers list back through the merge, as both the configuration and the
claim-stats source, reproduces the very same list (same wallets and
totalClaimed values), and re-running the engine on that fed-back input
(same lifetimeFees) reproduces the claimed, creator-share, top-1 and
top-5 percentages. -/
theorem merge_idempotent_roundtrip (env : JsEnv) (raw : RawData) :
    mergeClaimers (analyzeToken env raw).claimers (analyzeToken env raw).claimers =
        (analyzeToken env raw).claimers ∧
      (analyzeToken env
          { raw with
            creators := (analyzeToken env raw).claimers
            claimStats := (analyzeToken env raw).claimers }).claimers =
        (analyzeToken env raw).claimers ∧
      (analyzeToken env
          { raw with
            creators := (analyzeToken env raw).claimers
            claimStats := (analyzeToken env raw).claimers }).claimedPct =
        (analyzeToken env raw).claimedPct ∧
      (analyzeToken env
          { raw with
            creators := (analyzeToken env raw).claimers
            claimStats := (analyzeToken env raw).claimers }).creatorSharePct =
        (analyzeToken env raw).creatorSharePct ∧
      (analyzeToken env
          { raw with
            creators := (analyzeToken env raw).claimers
            claimStats := (analyzeToken env raw).claimers }).top1ClaimerPct =
        (analyzeToken env raw).top1ClaimerPct ∧
      (analyzeToken env
          { raw with
            creators := (analyzeToken env raw).claimers
            claimStats := (analyzeToken env raw).claimers }).top5ClaimerPct =
        (analyzeToken env raw).top5ClaimerPct := by
  have hm :
      mergedOf { raw with
        creators := (analyzeToken env raw).claimers
        claimStats := (analyzeToken env raw).claimers } = mergedOf raw := by
    show mergeClaimers (mergeClaimers raw.creators raw.claimStats)
        (mergeClaimers raw.creators raw.claimStats) = mergeClaimers raw.creators raw.claimStats
    exact mergeClaimers_self _ _
  obtain ⟨hcl, hcs, ht1, ht5⟩ := analyzeToken_same_merge_fields env hm rfl
  refine ⟨?_, ?_, hcl, hcs, ht1, ht5⟩
  · show mergeClaimers (mergedOf raw) (mergedOf raw) = mergedOf raw
    exact mergeClaimers_self _ _
  · rw [analyzeToken_claimers, analyzeToken_claimers]
    exact hm
